import Mathlib

/-!
# Verification of the UniswapV2Pool AMM implementation

Shallow embedding of `uniswap-v2-python-demo.py` (class `UniswapV2Pool`).

Modelling conventions:
* Python unbounded `int` is modelled by `Int`; Python floor division `//`
  is modelled by `Int.fdiv` (both floor toward negative infinity).
* The mutable object is modelled by explicit state passing: each method
  takes a `Pool` and returns `Except Err α × Pool`, where the returned
  pool is the state the caller observes after the call, whether the call
  raised (`.error`) or returned (`.ok`).  Error paths reproduce exactly
  the point in the method body at which the Python code raises, so a
  raise that happens after a field assignment returns the mutated state.
* Python's `dict` is modelled by an association list with first-match
  lookup and in-place update (`d[k] = v` keeps the position of an
  existing key and appends a fresh key at the end).
* Python dynamic-type checks (`isinstance`) are subsumed by the static
  types of the embedding and are not represented; the `AssertionError`
  raises are each given a distinct `Err` constructor.  The two dynamic
  checks that are value checks, not type checks — `token in [0, 1]` —
  are kept as explicit guards.
-/

/-- Error kinds, one per `raise` site reachable in the embedding
(`TypeError` sites that check value membership are `invalidToken`). -/
inductive Err where
  | invalidToken
  | alreadyInitialized
  | amountNotPositive
  | initialLiquidityTooSmall
  | liquidityResultTooSmall
  | poolNotInitialized
  | totalLiquidityAbnormal
  | liquidityTooSmall
  | removeNotPositive
  | noLiquidity
  | insufficientShares
  | belowMinimumLiquidity
  | badDenominator
  | outputTooSmall
  | outputExceedsReserve
  | slippageExceeded
  | kInvariantViolated
  | actualBelowMinimum
  | overflowError
deriving DecidableEq, Repr

/-- `MINIMUM_LIQUIDITY = 1000` from `__init__`. -/
def MINIMUM_LIQUIDITY : Int := 1000

/-- `FEE_DENOMINATOR = 1000` from `__init__`. -/
def FEE_DENOMINATOR : Int := 1000

/-- `FEE_NUMERATOR = 997` from `__init__`. -/
def FEE_NUMERATOR : Int := 997

/-- Python `d.get(k, dflt)`: value of the first matching key, else the
default. -/
def dictGet (d : List (String × Int)) (k : String) (dflt : Int) : Int :=
  match d with
  | [] => dflt
  | (k₁, v) :: rest => if k₁ = k then v else dictGet rest k dflt

/-- Python `k in d`. -/
def dictContains (d : List (String × Int)) (k : String) : Bool :=
  match d with
  | [] => false
  | (k₁, _) :: rest => k₁ = k || dictContains rest k

/-- Python `d[k] = v`: replace the value at an existing key in place,
or append a new key at the end. -/
def dictSet (d : List (String × Int)) (k : String) (v : Int) :
    List (String × Int) :=
  match d with
  | [] => [(k, v)]
  | (k₁, v₁) :: rest =>
      if k₁ = k then (k₁, v) :: rest else (k₁, v₁) :: dictSet rest k v

/-- `sum(d.values())`. -/
def dictSum (d : List (String × Int)) : Int :=
  (d.map Prod.snd).sum

/-- The mutable fields of a `UniswapV2Pool` object. -/
structure Pool where
  reserve0 : Int
  reserve1 : Int
  total_liquidity : Int
  liquidity_providers : List (String × Int)
deriving DecidableEq, Repr

/-- `UniswapV2Pool.__init__`: all fields zero / empty. -/
def emptyPool : Pool :=
  { reserve0 := 0, reserve1 := 0, total_liquidity := 0,
    liquidity_providers := [] }

/-- `initialize_pool(amount0, amount1, provider)`.

The source computes the initial liquidity as
`int(liquidity_squared ** 0.5)` — a double-precision square root
truncated to `int`, under a comment claiming an integer square root.
It is modelled here by the exact integer square root `Int.sqrt`; the two
agree whenever the product is small enough to be exactly representable
in the double's 53-bit mantissa, and they demonstrably disagree for
large products (see the divergence theorem for the initialization
claim). -/
def init_pool (p : Pool) (amount0 amount1 : Int) (provider : String) :
    Except Err Int × Pool :=
  if p.total_liquidity ≠ 0 then (.error .alreadyInitialized, p)
  else if amount0 ≤ 0 ∨ amount1 ≤ 0 then (.error .amountNotPositive, p)
  else
    let liquidity_squared := amount0 * amount1
    if liquidity_squared < MINIMUM_LIQUIDITY * MINIMUM_LIQUIDITY then
      (.error .initialLiquidityTooSmall, p)
    else
      let liquidity := Int.sqrt liquidity_squared
      if liquidity ≤ MINIMUM_LIQUIDITY then
        (.error .liquidityResultTooSmall, p)
      else
        let user_liquidity := liquidity - MINIMUM_LIQUIDITY
        (.ok user_liquidity,
          { reserve0 := amount0
            reserve1 := amount1
            total_liquidity := liquidity
            liquidity_providers :=
              dictSet (dictSet p.liquidity_providers "LOCKED"
                MINIMUM_LIQUIDITY) provider user_liquidity })

/-- `add_liquidity(amount0, amount1, provider)`; returns
`(liquidity, actual_amount0, actual_amount1, refund0, refund1)`. -/
def add_liquidity (p : Pool) (amount0 amount1 : Int) (provider : String) :
    Except Err (Int × Int × Int × Int × Int) × Pool :=
  if amount0 ≤ 0 ∨ amount1 ≤ 0 then (.error .amountNotPositive, p)
  else if p.reserve0 ≤ 0 ∨ p.reserve1 ≤ 0 then
    (.error .poolNotInitialized, p)
  else if p.total_liquidity ≤ 0 then (.error .totalLiquidityAbnormal, p)
  else
    let share0 := Int.fdiv (amount0 * p.total_liquidity) p.reserve0
    let share1 := Int.fdiv (amount1 * p.total_liquidity) p.reserve1
    let min_share := min share0 share1
    if min_share ≤ 0 then (.error .liquidityTooSmall, p)
    else
      let actual_amount0 :=
        Int.fdiv (min_share * p.reserve0) p.total_liquidity
      let actual_amount1 :=
        Int.fdiv (min_share * p.reserve1) p.total_liquidity
      let refund0 := amount0 - actual_amount0
      let refund1 := amount1 - actual_amount1
      let lp0 :=
        if dictContains p.liquidity_providers provider then
          p.liquidity_providers
        else dictSet p.liquidity_providers provider 0
      let lp := dictSet lp0 provider (dictGet lp0 provider 0 + min_share)
      (.ok (min_share, actual_amount0, actual_amount1, refund0, refund1),
        { reserve0 := p.reserve0 + actual_amount0
          reserve1 := p.reserve1 + actual_amount1
          total_liquidity := p.total_liquidity + min_share
          liquidity_providers := lp })

/-- `remove_liquidity(liquidity, provider)`; returns `(amount0, amount1)`. -/
def remove_liquidity (p : Pool) (liquidity : Int) (provider : String) :
    Except Err (Int × Int) × Pool :=
  if liquidity ≤ 0 then (.error .removeNotPositive, p)
  else if p.total_liquidity ≤ 0 then (.error .noLiquidity, p)
  else
    let provider_liquidity := dictGet p.liquidity_providers provider 0
    if provider_liquidity < liquidity then
      (.error .insufficientShares, p)
    else
      let remaining_liquidity := p.total_liquidity - liquidity
      if remaining_liquidity < MINIMUM_LIQUIDITY then
        (.error .belowMinimumLiquidity, p)
      else
        let amount0 := Int.fdiv (liquidity * p.reserve0) p.total_liquidity
        let amount1 := Int.fdiv (liquidity * p.reserve1) p.total_liquidity
        (.ok (amount0, amount1),
          { reserve0 := p.reserve0 - amount0
            reserve1 := p.reserve1 - amount1
            total_liquidity := remaining_liquidity
            liquidity_providers :=
              dictSet p.liquidity_providers provider
                (provider_liquidity - liquidity) })

/-- `swap(token_in, amount_in)`; returns the output amount and mutates
the reserves. -/
def swap (p : Pool) (token_in amount_in : Int) : Except Err Int × Pool :=
  if ¬(token_in = 0 ∨ token_in = 1) then (.error .invalidToken, p)
  else if amount_in ≤ 0 then (.error .amountNotPositive, p)
  else if p.reserve0 ≤ 0 ∨ p.reserve1 ≤ 0 then
    (.error .poolNotInitialized, p)
  else
    let reserve_in := if token_in = 0 then p.reserve0 else p.reserve1
    let reserve_out := if token_in = 0 then p.reserve1 else p.reserve0
    let amount_in_with_fee := amount_in * FEE_NUMERATOR
    let numerator := amount_in_with_fee * reserve_out
    let denominator := reserve_in * FEE_DENOMINATOR + amount_in_with_fee
    if denominator ≤ 0 then (.error .badDenominator, p)
    else
      let amount_out := Int.fdiv numerator denominator
      if amount_out ≤ 0 then (.error .outputTooSmall, p)
      else if amount_out ≥ reserve_out then
        (.error .outputExceedsReserve, p)
      else if token_in = 0 then
        (.ok amount_out,
          { p with reserve0 := p.reserve0 + amount_in
                   reserve1 := p.reserve1 - amount_out })
      else
        (.ok amount_out,
          { p with reserve1 := p.reserve1 + amount_in
                   reserve0 := p.reserve0 - amount_out })

/-- `get_amount_out(token_in, amount_in)`: the quote; pure, no state
change.  The body repeats the computation of `swap` line for line
(the source comments that it is deliberately identical). -/
def get_amount_out (p : Pool) (token_in amount_in : Int) : Except Err Int :=
  if ¬(token_in = 0 ∨ token_in = 1) then .error .invalidToken
  else if amount_in ≤ 0 then .error .amountNotPositive
  else if p.reserve0 ≤ 0 ∨ p.reserve1 ≤ 0 then .error .poolNotInitialized
  else
    let reserve_in := if token_in = 0 then p.reserve0 else p.reserve1
    let reserve_out := if token_in = 0 then p.reserve1 else p.reserve0
    let amount_in_with_fee := amount_in * FEE_NUMERATOR
    let numerator := amount_in_with_fee * reserve_out
    let denominator := reserve_in * FEE_DENOMINATOR + amount_in_with_fee
    if denominator ≤ 0 then .error .badDenominator
    else
      let amount_out := Int.fdiv numerator denominator
      if amount_out ≤ 0 then .error .outputTooSmall
      else if amount_out ≥ reserve_out then .error .outputExceedsReserve
      else .ok amount_out

/-- `get_amount_in(token_out, amount_out)`: inverse quote, rounded up;
pure. -/
def get_amount_in (p : Pool) (token_out amount_out : Int) :
    Except Err Int :=
  if ¬(token_out = 0 ∨ token_out = 1) then .error .invalidToken
  else if amount_out ≤ 0 then .error .amountNotPositive
  else if p.reserve0 ≤ 0 ∨ p.reserve1 ≤ 0 then .error .poolNotInitialized
  else
    let reserve_out := if token_out = 0 then p.reserve0 else p.reserve1
    let reserve_in := if token_out = 0 then p.reserve1 else p.reserve0
    if amount_out ≥ reserve_out then .error .outputExceedsReserve
    else
      let numerator := amount_out * reserve_in * FEE_DENOMINATOR
      let denominator := (reserve_out - amount_out) * FEE_NUMERATOR
      if denominator ≤ 0 then .error .badDenominator
      else .ok (Int.fdiv (numerator + denominator - 1) denominator)

/-- `get_k_value()`. -/
def get_k_value (p : Pool) : Int :=
  p.reserve0 * p.reserve1

/-- The smallest positive integer whose conversion to an IEEE-754
double (round to nearest, ties to even) overflows: the largest finite
double is `2^1024 - 2^971`, and every integer at or above the midpoint
`2^1024 - 2^970` rounds to `2^1024`, so CPython's int-to-float
conversion raises `OverflowError` exactly for magnitudes at or above
this value.  (Written as a literal so that concrete states evaluate by
kernel reduction; the equation with `2 ^ 1024 - 2 ^ 970` is proved just
below.) -/
def FLOAT_OVERFLOW_THRESHOLD : Int :=
  179769313486231580793728971405303415079934132710037826936173778980444968292764750946649017977587207096330286416692887910946555547851940402630657488671505820681908902000708383676273854845817711531764475730270069855571366959622842914819860834936475292719074168444365510704342711559699508093042880177904174497792

/-- The literal above is exactly `2^1024 - 2^970`. -/
theorem FLOAT_OVERFLOW_THRESHOLD_eq :
    FLOAT_OVERFLOW_THRESHOLD = 2 ^ 1024 - 2 ^ 970 := by
  norm_num [FLOAT_OVERFLOW_THRESHOLD]

/-- `verify_k_invariant(old_k)` at the default tolerance `0.000001`.

The source computes `new_k >= old_k * (1.0 - tolerance)`.  The
multiplication `old_k * (1.0 - tolerance)` first converts the unbounded
integer `old_k` to a double, which raises `OverflowError` whenever
`|old_k| ≥ FLOAT_OVERFLOW_THRESHOLD`; that raise is modelled by the
`.error` branch.  In the non-overflowing range the double comparison is
modelled by the exact rational comparison
`1000000 * new_k ≥ 999999 * old_k`; every theorem below that touches
this branch establishes `new_k ≥ old_k ≥ 0` outright, which makes both
the modelled comparison and the floating-point one true, so no result
depends on the difference between the two readings there. -/
def verify_k_invariant (p : Pool) (old_k : Int) : Except Err Bool :=
  if FLOAT_OVERFLOW_THRESHOLD ≤ old_k ∨ old_k ≤ -FLOAT_OVERFLOW_THRESHOLD
  then .error .overflowError
  else .ok (decide (1000000 * get_k_value p ≥ 999999 * old_k))

/-- `safe_swap_with_slippage(token_in, amount_in, min_amount_out)`.
Note the two checks after the call to `swap`: a raise there — including
the `OverflowError` escaping `verify_k_invariant` — propagates with the
reserves already mutated. -/
def safe_swap_with_slippage (p : Pool)
    (token_in amount_in min_amount_out : Int) : Except Err Int × Pool :=
  match get_amount_out p token_in amount_in with
  | .error e => (.error e, p)
  | .ok predicted_out =>
    if predicted_out < min_amount_out then (.error .slippageExceeded, p)
    else
      let old_k := get_k_value p
      match swap p token_in amount_in with
      | (.error e, p₁) => (.error e, p₁)
      | (.ok actual_out, p₁) =>
        match verify_k_invariant p₁ old_k with
        | .error e => (.error e, p₁)
        | .ok verified =>
          if ¬verified then (.error .kInvariantViolated, p₁)
          else if actual_out < min_amount_out then
            (.error .actualBelowMinimum, p₁)
          else (.ok actual_out, p₁)

/-- `get_liquidity_info(provider)`. -/
def get_liquidity_info (p : Pool) (provider : String) : Int × Int × Int :=
  let liquidity := dictGet p.liquidity_providers provider 0
  if p.total_liquidity ≤ 0 then (0, 0, 0)
  else
    (liquidity,
     Int.fdiv (liquidity * p.reserve0) p.total_liquidity,
     Int.fdiv (liquidity * p.reserve1) p.total_liquidity)

/-- The integer-valued fields of the dictionary returned by
`get_pool_info()` (the two floating-point price entries are reported
for display only and are not modelled). -/
structure PoolInfo where
  reserve0 : Int
  reserve1 : Int
  total_liquidity : Int
  k_value : Int
  locked_liquidity : Int
  provider_count : Nat
deriving DecidableEq, Repr

/-- `get_pool_info()`: `provider_count` counts the keys of the provider
mapping other than `'LOCKED'`, regardless of their balance. -/
def get_pool_info (p : Pool) : PoolInfo :=
  { reserve0 := p.reserve0
    reserve1 := p.reserve1
    total_liquidity := p.total_liquidity
    k_value := get_k_value p
    locked_liquidity := dictGet p.liquidity_providers "LOCKED" 0
    provider_count :=
      (p.liquidity_providers.filter (fun q => q.1 != "LOCKED")).length }

/-- One call against the pool, for stating properties of call
sequences. -/
inductive PoolOp where
  | init (amount0 amount1 : Int) (provider : String)
  | add (amount0 amount1 : Int) (provider : String)
  | remove (liquidity : Int) (provider : String)
  | doSwap (token_in amount_in : Int)
  | doSafeSwap (token_in amount_in min_amount_out : Int)
deriving DecidableEq, Repr

/-- The state after one call, whether it raised or returned. -/
def applyOp (p : Pool) : PoolOp → Pool
  | .init a0 a1 pr => (init_pool p a0 a1 pr).2
  | .add a0 a1 pr => (add_liquidity p a0 a1 pr).2
  | .remove l pr => (remove_liquidity p l pr).2
  | .doSwap t a => (swap p t a).2
  | .doSafeSwap t a m => (safe_swap_with_slippage p t a m).2

/-- The state after a sequence of calls. -/
def runOps (p : Pool) (ops : List PoolOp) : Pool :=
  ops.foldl applyOp p

/-- The provider argument of a call, if it has one. -/
def opProvider : PoolOp → Option String
  | .init _ _ pr => some pr
  | .add _ _ pr => some pr
  | .remove _ pr => some pr
  | .doSwap _ _ => none
  | .doSafeSwap _ _ _ => none

/-- Whether a call is an `initialize_pool` call. -/
def opIsInit : PoolOp → Bool
  | .init _ _ _ => true
  | _ => false

deriving instance DecidableEq for Except

/-! ### Association-list (Python `dict`) lemmas -/

theorem dictGet_dictSet_self (d : List (String × Int)) (k : String)
    (v dflt : Int) : dictGet (dictSet d k v) k dflt = v := by
  induction d with
  | nil => simp [dictGet, dictSet]
  | cons hd tl ih =>
    obtain ⟨k₁, v₁⟩ := hd
    by_cases h : k₁ = k <;> simp [dictGet, dictSet, h, ih]

theorem dictGet_dictSet_ne (d : List (String × Int)) (k k' : String)
    (v dflt : Int) (h : k ≠ k') :
    dictGet (dictSet d k v) k' dflt = dictGet d k' dflt := by
  induction d with
  | nil => simp [dictGet, dictSet, h]
  | cons hd tl ih =>
    obtain ⟨k₁, v₁⟩ := hd
    by_cases h₁ : k₁ = k <;> simp [dictGet, dictSet, h₁, ih]
    · subst h₁; simp [h]

theorem dictContains_dictSet_self (d : List (String × Int)) (k : String)
    (v : Int) : dictContains (dictSet d k v) k = true := by
  induction d with
  | nil => simp [dictContains, dictSet]
  | cons hd tl ih =>
    obtain ⟨k₁, v₁⟩ := hd
    by_cases h : k₁ = k <;> simp [dictContains, dictSet, h, ih]

theorem dictContains_of_dictGet_ne (d : List (String × Int)) (k : String)
    (h : dictGet d k 0 ≠ 0) : dictContains d k = true := by
  induction d with
  | nil => simp [dictGet] at h
  | cons hd tl ih =>
    obtain ⟨k₁, v₁⟩ := hd
    by_cases h₁ : k₁ = k
    · simp [dictContains, h₁]
    · simp only [dictGet, if_neg h₁] at h
      simp [dictContains, h₁, ih h]

theorem dictSum_dictSet (d : List (String × Int)) (k : String) (v : Int) :
    dictSum (dictSet d k v) = dictSum d + v - dictGet d k 0 := by
  induction d with
  | nil => simp [dictSum, dictSet, dictGet]
  | cons hd tl ih =>
    obtain ⟨k₁, v₁⟩ := hd
    by_cases h : k₁ = k <;>
      simp [dictSum, dictSet, dictGet, h] at ih ⊢ <;> omega

/-- The `provider_count` filter only looks at keys, so updating the value
at an existing key leaves it unchanged. -/
theorem filter_length_dictSet (d : List (String × Int)) (k : String)
    (v : Int) (hk : dictContains d k = true) :
    ((dictSet d k v).filter (fun q => q.1 != "LOCKED")).length =
      (d.filter (fun q => q.1 != "LOCKED")).length := by
  induction d with
  | nil => simp [dictContains] at hk
  | cons hd tl ih =>
    obtain ⟨k₁, v₁⟩ := hd
    by_cases h : k₁ = k
    · subst h
      simp only [dictSet, if_pos rfl]
      cases hL : (k₁ != "LOCKED") <;> simp [List.filter, hL]
    · have hk' : dictContains tl k = true := by
        simpa [dictContains, h] using hk
      simp only [dictSet, if_neg h]
      cases hL : (k₁ != "LOCKED") <;> simp [List.filter, hL, ih hk']

/-! ### Exact integer square root facts -/

theorem nat_sqrt_eq (n r : Nat) (h1 : r * r ≤ n)
    (h2 : n < (r + 1) * (r + 1)) : Nat.sqrt n = r :=
  le_antisymm (by rwa [← Nat.lt_succ_iff, Nat.sqrt_lt]) (Nat.le_sqrt.mpr h1)

theorem int_sqrt_eq (n r : Nat) (h1 : r * r ≤ n)
    (h2 : n < (r + 1) * (r + 1)) : Int.sqrt (n : Int) = (r : Int) := by
  unfold Int.sqrt
  rw [Int.toNat_natCast, nat_sqrt_eq n r h1 h2]

/-- `floor (sqrt 400000000) = 20000` (a perfect square, used by concrete
witness states). -/
theorem int_sqrt_4e8 : Int.sqrt 400000000 = 20000 := by
  simpa using int_sqrt_eq 400000000 20000 (by norm_num) (by norm_num)

/-! ### Swap arithmetic -/

/-- Core constant-product inequality: with positive reserves and input,
the floored fee-adjusted output leaves the product of reserves no
smaller. -/
theorem swap_formula_k (rin rout a : Int) (hrin : 0 < rin)
    (hrout : 0 < rout) (ha : 0 < a) :
    rin * rout ≤
      (rin + a) *
        (rout - Int.fdiv (a * FEE_NUMERATOR * rout)
          (rin * FEE_DENOMINATOR + a * FEE_NUMERATOR)) := by
  unfold FEE_NUMERATOR FEE_DENOMINATOR
  have hden : (0:Int) < rin * 1000 + a * 997 := by nlinarith
  rw [Int.fdiv_eq_ediv _ hden.le]
  set out := a * 997 * rout / (rin * 1000 + a * 997) with hout
  have h1 : out * (rin * 1000 + a * 997) ≤ a * 997 * rout :=
    Int.ediv_mul_le _ hden.ne'
  have h2 : 0 ≤ out := Int.ediv_nonneg (by nlinarith) hden.le
  nlinarith [mul_nonneg hrin.le h2]

/-- A successful `swap` does not decrease `reserve0 * reserve1`. -/
theorem swap_k (p : Pool) (t a out : Int) (p' : Pool)
    (h : swap p t a = (.ok out, p')) :
    p.reserve0 * p.reserve1 ≤ p'.reserve0 * p'.reserve1 := by
  unfold swap at h
  dsimp only at h
  split_ifs at h with h1 h2 h3 h4 h5 h6 h7 <;> simp_all
  · obtain ⟨hout, hp⟩ := h
    subst hout
    subst hp
    simpa using swap_formula_k p.reserve0 p.reserve1 a h3.1 h3.2 h2
  · obtain ⟨hout, hp⟩ := h
    subst hout
    subst hp
    have hk := swap_formula_k p.reserve1 p.reserve0 a h3.2 h3.1 h2
    simp only
    ring_nf at hk ⊢
    linarith

/-- The quote and the executed swap run identical arithmetic: the result
component of `swap` is exactly `get_amount_out`. -/
theorem get_amount_out_eq_swap_fst (p : Pool) (t a : Int) :
    get_amount_out p t a = (swap p t a).1 := by
  unfold get_amount_out swap
  dsimp only
  split_ifs <;> rfl

theorem swap_snd (p : Pool) (t a : Int) :
    ((swap p t a).2).total_liquidity = p.total_liquidity ∧
    ((swap p t a).2).liquidity_providers = p.liquidity_providers := by
  unfold swap
  dsimp only
  split_ifs <;> exact ⟨rfl, rfl⟩

theorem safe_swap_snd (p : Pool) (t a m : Int) :
    ((safe_swap_with_slippage p t a m).2).total_liquidity =
      p.total_liquidity ∧
    ((safe_swap_with_slippage p t a m).2).liquidity_providers =
      p.liquidity_providers := by
  unfold safe_swap_with_slippage
  cases hq : get_amount_out p t a with
  | error e => exact ⟨rfl, rfl⟩
  | ok q =>
    dsimp only
    split_ifs with h1
    · exact ⟨rfl, rfl⟩
    · have hs := swap_snd p t a
      rcases hsw : swap p t a with ⟨r, p₁⟩
      rw [hsw] at hs
      cases r with
      | error e => exact hs
      | ok v =>
        dsimp only
        cases hv : verify_k_invariant p₁ (get_k_value p) with
        | error e => exact hs
        | ok verified =>
          dsimp only
          split_ifs <;> exact hs

theorem applyOp_locked (p : Pool) (op : PoolOp)
    (hpr : opProvider op ≠ some "LOCKED")
    (hL : dictGet p.liquidity_providers "LOCKED" 0 = MINIMUM_LIQUIDITY)
    (hT : MINIMUM_LIQUIDITY ≤ p.total_liquidity) :
    dictGet (applyOp p op).liquidity_providers "LOCKED" 0 =
      MINIMUM_LIQUIDITY ∧
    MINIMUM_LIQUIDITY ≤ (applyOp p op).total_liquidity := by
  unfold MINIMUM_LIQUIDITY at hL hT ⊢
  cases op with
  | init a0 a1 pr =>
    have hne : p.total_liquidity ≠ 0 := by omega
    simp [applyOp, init_pool, hne, hL, hT]
  | add a0 a1 pr =>
    have hpr' : pr ≠ "LOCKED" := by
      intro hc; exact hpr (by simp [opProvider, hc])
    unfold applyOp add_liquidity
    dsimp only
    split_ifs with h1 h2 h3 h4 h5
    · exact ⟨hL, hT⟩
    · exact ⟨hL, hT⟩
    · exact ⟨hL, hT⟩
    · exact ⟨hL, hT⟩
    · have hm := lt_of_not_le h4
      refine ⟨?_, by dsimp only; linarith⟩
      dsimp only
      rw [dictGet_dictSet_ne _ _ _ _ _ hpr']
      exact hL
    · have hm := lt_of_not_le h4
      refine ⟨?_, by dsimp only; linarith⟩
      dsimp only
      rw [dictGet_dictSet_ne _ _ _ _ _ hpr',
        dictGet_dictSet_ne _ _ _ _ _ hpr']
      exact hL
  | remove l pr =>
    have hpr' : pr ≠ "LOCKED" := by
      intro hc; exact hpr (by simp [opProvider, hc])
    unfold applyOp remove_liquidity
    dsimp only
    split_ifs with h1 h2 h3 h4
    · exact ⟨hL, hT⟩
    · exact ⟨hL, hT⟩
    · exact ⟨hL, hT⟩
    · exact ⟨hL, hT⟩
    · unfold MINIMUM_LIQUIDITY at h4
      refine ⟨?_, ?_⟩
      · dsimp only
        rw [dictGet_dictSet_ne _ _ _ _ _ hpr']
        exact hL
      · dsimp only
        omega
  | doSwap t a =>
    have hs := swap_snd p t a
    simp [applyOp, hs.1, hs.2, hL, hT]
  | doSafeSwap t a m =>
    have hs := safe_swap_snd p t a m
    simp [applyOp, hs.1, hs.2, hL, hT]

theorem dictGet_of_not_contains (d : List (String × Int)) (k : String)
    (dflt : Int) (h : dictContains d k = false) : dictGet d k dflt = dflt := by
  induction d with
  | nil => rfl
  | cons hd tl ih =>
    obtain ⟨k₁, v₁⟩ := hd
    simp only [dictContains, Bool.or_eq_false_iff, decide_eq_false_iff_not] at h
    simp [dictGet, h.1, ih h.2]

theorem applyOp_sum (p : Pool) (op : PoolOp)
    (hpr : opIsInit op = true → opProvider op ≠ some "LOCKED")
    (hsum : dictSum p.liquidity_providers = p.total_liquidity)
    (hemp : p.total_liquidity = 0 → p.liquidity_providers = []) :
    dictSum (applyOp p op).liquidity_providers =
      (applyOp p op).total_liquidity ∧
    ((applyOp p op).total_liquidity = 0 →
      (applyOp p op).liquidity_providers = []) := by
  cases op with
  | init a0 a1 pr =>
    have hpr' : pr ≠ "LOCKED" := by
      intro hc
      exact (hpr rfl) (by simp [opProvider, hc])
    unfold applyOp init_pool
    dsimp only
    split_ifs with h1 h2 h3 h4
    · exact ⟨hsum, hemp⟩
    · exact ⟨hsum, hemp⟩
    · exact ⟨hsum, hemp⟩
    · exact ⟨hsum, hemp⟩
    · have h0 : p.total_liquidity = 0 := by omega
      have hlpe : p.liquidity_providers = [] := hemp h0
      have hliq := lt_of_not_le h4
      unfold MINIMUM_LIQUIDITY at hliq ⊢
      refine ⟨?_, ?_⟩
      · dsimp only
        rw [hlpe]
        simp [dictSet, Ne.symm hpr', dictSum]
      · dsimp only
        intro hc
        omega
  | add a0 a1 pr =>
    unfold applyOp add_liquidity
    dsimp only
    split_ifs with h1 h2 h3 h4 h5
    · exact ⟨hsum, hemp⟩
    · exact ⟨hsum, hemp⟩
    · exact ⟨hsum, hemp⟩
    · exact ⟨hsum, hemp⟩
    · have hm := lt_of_not_le h4
      have ht := lt_of_not_le h3
      refine ⟨?_, ?_⟩
      · dsimp only
        rw [dictSum_dictSet]
        omega
      · dsimp only
        intro hc
        exfalso
        omega
    · have hm := lt_of_not_le h4
      have ht := lt_of_not_le h3
      have hget : dictGet p.liquidity_providers pr 0 = 0 :=
        dictGet_of_not_contains _ _ _ (Bool.of_not_eq_true h5)
      refine ⟨?_, ?_⟩
      · dsimp only
        rw [dictSum_dictSet, dictGet_dictSet_self, dictSum_dictSet, hget]
        omega
      · dsimp only
        intro hc
        exfalso
        omega
  | remove l pr =>
    unfold applyOp remove_liquidity
    dsimp only
    split_ifs with h1 h2 h3 h4
    · exact ⟨hsum, hemp⟩
    · exact ⟨hsum, hemp⟩
    · exact ⟨hsum, hemp⟩
    · exact ⟨hsum, hemp⟩
    · unfold MINIMUM_LIQUIDITY at h4
      refine ⟨?_, ?_⟩
      · dsimp only
        rw [dictSum_dictSet]
        omega
      · dsimp only
        intro hc
        exfalso
        omega
  | doSwap t a =>
    have hs := swap_snd p t a
    unfold applyOp
    refine ⟨?_, ?_⟩
    · rw [hs.1, hs.2]; exact hsum
    · intro hc; rw [hs.2]; exact hemp (by rw [← hs.1]; exact hc)
  | doSafeSwap t a m =>
    have hs := safe_swap_snd p t a m
    unfold applyOp
    refine ⟨?_, ?_⟩
    · rw [hs.1, hs.2]; exact hsum
    · intro hc; rw [hs.2]; exact hemp (by rw [← hs.1]; exact hc)

/-- A `swap` call that raises leaves the pool untouched. -/
theorem swap_error_snd (p : Pool) (t a : Int) (e : Err) (p' : Pool)
    (h : swap p t a = (.error e, p')) : p' = p := by
  unfold swap at h
  dsimp only at h
  split_ifs at h <;> simp_all

/-- Shape of a successful `swap`: the guards that passed and the
resulting state. -/
theorem swap_ok_cases (p : Pool) (t a out : Int) (p' : Pool)
    (h : swap p t a = (.ok out, p')) :
    0 < a ∧ 0 < p.reserve0 ∧ 0 < p.reserve1 ∧ 0 < out ∧
    ((t = 0 ∧ out < p.reserve1 ∧
        p' = { p with reserve0 := p.reserve0 + a,
                      reserve1 := p.reserve1 - out }) ∨
     (t = 1 ∧ out < p.reserve0 ∧
        p' = { p with reserve1 := p.reserve1 + a,
                      reserve0 := p.reserve0 - out })) := by
  unfold swap at h
  dsimp only at h
  split_ifs at h with h1 h2 h3 h4 h5 h6 h7 <;> simp_all
  · obtain ⟨hout, hp⟩ := h
    rw [← hp, hout]
  · obtain ⟨hout, hp⟩ := h
    rw [← hp, hout]

/-- A `swap` call — successful or not — preserves the reserve-positivity
classification of the pool. -/
theorem swap_reserves (p : Pool) (t a : Int)
    (h : p.total_liquidity = 0 ∧ p.reserve0 = 0 ∧ p.reserve1 = 0 ∨
      0 < p.total_liquidity ∧ 0 < p.reserve0 ∧ 0 < p.reserve1) :
    (swap p t a).2.total_liquidity = 0 ∧ (swap p t a).2.reserve0 = 0 ∧
      (swap p t a).2.reserve1 = 0 ∨
    0 < (swap p t a).2.total_liquidity ∧ 0 < (swap p t a).2.reserve0 ∧
      0 < (swap p t a).2.reserve1 := by
  rcases hsw : swap p t a with ⟨r, p₁⟩
  cases r with
  | error e =>
    dsimp only
    rw [swap_error_snd p t a e p₁ hsw]
    exact h
  | ok v =>
    dsimp only
    obtain ⟨ha, hr0, hr1, hout, hcases⟩ := swap_ok_cases p t a v p₁ hsw
    have htot : 0 < p.total_liquidity := by
      rcases h with ⟨_, h0, _⟩ | ⟨ht, _, _⟩
      · linarith
      · exact ht
    right
    rcases hcases with ⟨_, hlt, rfl⟩ | ⟨_, hlt, rfl⟩
    · exact ⟨htot, by dsimp only; linarith, by dsimp only; linarith⟩
    · exact ⟨htot, by dsimp only; linarith, by dsimp only; linarith⟩

/-- Every call preserves the reserve-positivity classification: either
the pool is still uninitialized with zero reserves, or both reserves and
the total liquidity are strictly positive. -/
theorem applyOp_reserves (p : Pool) (op : PoolOp)
    (h : p.total_liquidity = 0 ∧ p.reserve0 = 0 ∧ p.reserve1 = 0 ∨
      0 < p.total_liquidity ∧ 0 < p.reserve0 ∧ 0 < p.reserve1) :
    (applyOp p op).total_liquidity = 0 ∧ (applyOp p op).reserve0 = 0 ∧
      (applyOp p op).reserve1 = 0 ∨
    0 < (applyOp p op).total_liquidity ∧ 0 < (applyOp p op).reserve0 ∧
      0 < (applyOp p op).reserve1 := by
  cases op with
  | init a0 a1 pr =>
    unfold applyOp init_pool
    dsimp only
    split_ifs with h1 h2 h3 h4
    · exact h
    · exact h
    · exact h
    · exact h
    · right
      push_neg at h2
      have hliq := lt_of_not_le h4
      unfold MINIMUM_LIQUIDITY at hliq
      exact ⟨by dsimp only; linarith, by dsimp only; linarith [h2.1],
        by dsimp only; linarith [h2.2]⟩
  | add a0 a1 pr =>
    unfold applyOp add_liquidity
    dsimp only
    split_ifs with h1 h2 h3 h4 h5
    · exact h
    · exact h
    · exact h
    · exact h
    all_goals
      right
      push_neg at h2
      have ht := lt_of_not_le h3
      have hm := lt_of_not_le h4
      have hu0 : 0 ≤ Int.fdiv
          ((Int.fdiv (a0 * p.total_liquidity) p.reserve0 ⊓
            Int.fdiv (a1 * p.total_liquidity) p.reserve1) * p.reserve0)
          p.total_liquidity :=
        Int.fdiv_nonneg (mul_nonneg hm.le h2.1.le) ht.le
      have hu1 : 0 ≤ Int.fdiv
          ((Int.fdiv (a0 * p.total_liquidity) p.reserve0 ⊓
            Int.fdiv (a1 * p.total_liquidity) p.reserve1) * p.reserve1)
          p.total_liquidity :=
        Int.fdiv_nonneg (mul_nonneg hm.le h2.2.le) ht.le
      exact ⟨by dsimp only; linarith, by dsimp only; linarith [h2.1],
        by dsimp only; linarith [h2.2]⟩
  | remove l pr =>
    unfold applyOp remove_liquidity
    dsimp only
    split_ifs with h1 h2 h3 h4
    · exact h
    · exact h
    · exact h
    · exact h
    · right
      have ht := lt_of_not_le h2
      unfold MINIMUM_LIQUIDITY at h4
      have hl := lt_of_not_le h1
      have hltot : l < p.total_liquidity := by omega
      have hr : 0 < p.reserve0 ∧ 0 < p.reserve1 := by
        rcases h with ⟨h0, _, _⟩ | ⟨_, hr0, hr1⟩
        · omega
        · exact ⟨hr0, hr1⟩
      have ha0 : Int.fdiv (l * p.reserve0) p.total_liquidity <
          p.reserve0 := by
        rw [Int.fdiv_eq_ediv _ ht.le, Int.ediv_lt_iff_lt_mul ht]
        nlinarith [hr.1]
      have ha1 : Int.fdiv (l * p.reserve1) p.total_liquidity <
          p.reserve1 := by
        rw [Int.fdiv_eq_ediv _ ht.le, Int.ediv_lt_iff_lt_mul ht]
        nlinarith [hr.2]
      exact ⟨by dsimp only; omega, by dsimp only; linarith,
        by dsimp only; linarith⟩
  | doSwap t a => exact swap_reserves p t a h
  | doSafeSwap t a m =>
    simp only [applyOp]
    unfold safe_swap_with_slippage
    cases hq : get_amount_out p t a with
    | error e => exact h
    | ok q =>
      dsimp only
      split_ifs with h1
      · exact h
      · have hs := swap_reserves p t a h
        rcases hsw : swap p t a with ⟨r, p₁⟩
        rw [hsw] at hs
        cases r with
        | error e => exact hs
        | ok v =>
          dsimp only
          cases hv : verify_k_invariant p₁ (get_k_value p) with
          | error e => exact hs
          | ok verified =>
            dsimp only
            split_ifs <;> exact hs

/-- An `initialize_pool` call that raises leaves the pool untouched. -/
theorem init_error_snd (p : Pool) (a0 a1 : Int) (pr : String) (e : Err)
    (p' : Pool) (h : init_pool p a0 a1 pr = (.error e, p')) : p' = p := by
  unfold init_pool at h
  dsimp only at h
  split_ifs at h <;> simp_all

/-- An `add_liquidity` call that raises leaves the pool untouched. -/
theorem add_error_snd (p : Pool) (a0 a1 : Int) (pr : String) (e : Err)
    (p' : Pool) (h : add_liquidity p a0 a1 pr = (.error e, p')) : p' = p := by
  unfold add_liquidity at h
  dsimp only at h
  split_ifs at h <;> simp_all

/-- A `remove_liquidity` call that raises leaves the pool untouched. -/
theorem remove_error_snd (p : Pool) (l : Int) (pr : String) (e : Err)
    (p' : Pool) (h : remove_liquidity p l pr = (.error e, p')) : p' = p := by
  unfold remove_liquidity at h
  dsimp only at h
  split_ifs at h <;> simp_all

/-- The value `(num + den - 1) // den` computed by `get_amount_in` is
the ceiling of `num / den`. -/
theorem ceil_div_spec (num den : Int) (hden : 0 < den) :
    den * (Int.fdiv (num + den - 1) den - 1) < num ∧
    num ≤ den * Int.fdiv (num + den - 1) den := by
  rw [Int.fdiv_eq_ediv _ hden.le]
  constructor
  · nlinarith [Int.ediv_mul_le (num + den - 1) hden.ne']
  · nlinarith [Int.lt_ediv_add_one_mul_self (num + den - 1) hden]

/-- Core round-trip inequality: the rounded-up required input, fed back
through the rounded-down output formula, delivers at least the requested
amount and strictly less than the output reserve. -/
theorem roundtrip_core (rin rout X a : Int) (hrin : 0 < rin)
    (hrout : 0 < rout) (hX : 0 < X) (hXr : X < rout)
    (ha : a = Int.fdiv
      (X * rin * FEE_DENOMINATOR + (rout - X) * FEE_NUMERATOR - 1)
      ((rout - X) * FEE_NUMERATOR)) :
    0 < a ∧
    X ≤ Int.fdiv (a * FEE_NUMERATOR * rout)
      (rin * FEE_DENOMINATOR + a * FEE_NUMERATOR) ∧
    Int.fdiv (a * FEE_NUMERATOR * rout)
      (rin * FEE_DENOMINATOR + a * FEE_NUMERATOR) < rout := by
  unfold FEE_NUMERATOR FEE_DENOMINATOR at *
  have hden : (0:Int) < (rout - X) * 997 := by nlinarith
  obtain ⟨hc1, hc2⟩ := ceil_div_spec (X * rin * 1000) ((rout - X) * 997) hden
  rw [← ha] at hc1 hc2
  have hnum : (0:Int) < X * rin * 1000 := by nlinarith
  have hapos : 0 < a := by nlinarith
  have hden2 : (0:Int) < rin * 1000 + a * 997 := by nlinarith
  refine ⟨hapos, ?_, ?_⟩
  · rw [Int.fdiv_eq_ediv _ hden2.le, Int.le_ediv_iff_mul_le hden2]
    nlinarith
  · rw [Int.fdiv_eq_ediv _ hden2.le, Int.ediv_lt_iff_lt_mul hden2]
    nlinarith

/-- `get_amount_out` succeeds and returns the quote formula whenever the
guards are satisfied (token 0 direction). -/
theorem get_amount_out_ok0 (p : Pool) (a out : Int)
    (h0 : 0 < p.reserve0) (h1 : 0 < p.reserve1) (ha : 0 < a)
    (hout : out = Int.fdiv (a * FEE_NUMERATOR * p.reserve1)
      (p.reserve0 * FEE_DENOMINATOR + a * FEE_NUMERATOR))
    (hpos : 0 < out) (hlt : out < p.reserve1) :
    get_amount_out p 0 a = .ok out := by
  have hden : (0:Int) < p.reserve0 * FEE_DENOMINATOR + a * FEE_NUMERATOR := by
    unfold FEE_NUMERATOR FEE_DENOMINATOR
    nlinarith
  unfold get_amount_out
  dsimp only
  split_ifs with c1 c2 c3 c4 c5 c6 <;> first
    | (exfalso; simp_all; done)
    | (exfalso; omega)
    | (exfalso; subst hout; omega)
    | rw [hout]

/-- `get_amount_out` succeeds and returns the quote formula whenever the
guards are satisfied (token 1 direction). -/
theorem get_amount_out_ok1 (p : Pool) (a out : Int)
    (h0 : 0 < p.reserve0) (h1 : 0 < p.reserve1) (ha : 0 < a)
    (hout : out = Int.fdiv (a * FEE_NUMERATOR * p.reserve0)
      (p.reserve1 * FEE_DENOMINATOR + a * FEE_NUMERATOR))
    (hpos : 0 < out) (hlt : out < p.reserve0) :
    get_amount_out p 1 a = .ok out := by
  have hden : (0:Int) < p.reserve1 * FEE_DENOMINATOR + a * FEE_NUMERATOR := by
    unfold FEE_NUMERATOR FEE_DENOMINATOR
    nlinarith
  unfold get_amount_out
  dsimp only
  split_ifs with c1 c2 c3 c4 c5 c6 <;> first
    | (exfalso; simp_all; done)
    | (exfalso; omega)
    | (exfalso; subst hout; omega)
    | rw [hout]

/-- Shape of a successful `initialize_pool`: the guards that passed and
the resulting state. -/
theorem init_ok_cases (p : Pool) (a0 a1 : Int) (pr : String) (r : Int)
    (p' : Pool) (h : init_pool p a0 a1 pr = (.ok r, p')) :
    p.total_liquidity = 0 ∧ 0 < a0 ∧ 0 < a1 ∧
    MINIMUM_LIQUIDITY * MINIMUM_LIQUIDITY ≤ a0 * a1 ∧
    MINIMUM_LIQUIDITY < Int.sqrt (a0 * a1) ∧
    r = Int.sqrt (a0 * a1) - MINIMUM_LIQUIDITY ∧
    p' = { reserve0 := a0, reserve1 := a1,
           total_liquidity := Int.sqrt (a0 * a1),
           liquidity_providers :=
             dictSet (dictSet p.liquidity_providers "LOCKED"
               MINIMUM_LIQUIDITY) pr
               (Int.sqrt (a0 * a1) - MINIMUM_LIQUIDITY) } := by
  unfold init_pool at h
  dsimp only at h
  split_ifs at h with h1 h2 h3 h4 <;> simp_all
  obtain ⟨hr, hp⟩ := h
  rw [← hp, hr]

/-- Shape of a successful `remove_liquidity`: the guards that passed and
the resulting state. -/
theorem remove_ok_cases (p : Pool) (l : Int) (pr : String) (rr : Int × Int)
    (p' : Pool) (h : remove_liquidity p l pr = (.ok rr, p')) :
    0 < l ∧ 0 < p.total_liquidity ∧
    l ≤ dictGet p.liquidity_providers pr 0 ∧
    MINIMUM_LIQUIDITY ≤ p.total_liquidity - l ∧
    rr = (Int.fdiv (l * p.reserve0) p.total_liquidity,
          Int.fdiv (l * p.reserve1) p.total_liquidity) ∧
    p' = { reserve0 :=
             p.reserve0 - Int.fdiv (l * p.reserve0) p.total_liquidity,
           reserve1 :=
             p.reserve1 - Int.fdiv (l * p.reserve1) p.total_liquidity,
           total_liquidity := p.total_liquidity - l,
           liquidity_providers :=
             dictSet p.liquidity_providers pr
               (dictGet p.liquidity_providers pr 0 - l) } := by
  unfold remove_liquidity at h
  dsimp only at h
  split_ifs at h with h1 h2 h3 h4 <;> simp_all

/-- Shape of a successful `get_amount_in`: the guards that passed and
the returned rounded-up input amount. -/
theorem get_amount_in_ok_cases (p : Pool) (t X v : Int)
    (h : get_amount_in p t X = .ok v) :
    0 < X ∧ 0 < p.reserve0 ∧ 0 < p.reserve1 ∧
    ((t = 0 ∧ X < p.reserve0 ∧
        v = Int.fdiv (X * p.reserve1 * FEE_DENOMINATOR +
          (p.reserve0 - X) * FEE_NUMERATOR - 1)
          ((p.reserve0 - X) * FEE_NUMERATOR)) ∨
     (t = 1 ∧ X < p.reserve1 ∧
        v = Int.fdiv (X * p.reserve0 * FEE_DENOMINATOR +
          (p.reserve1 - X) * FEE_NUMERATOR - 1)
          ((p.reserve1 - X) * FEE_NUMERATOR))) := by
  unfold get_amount_in at h
  dsimp only at h
  split_ifs at h with h1 h2 h3 h4 h5 h6 <;> simp_all

/-- Running a call sequence with no `'LOCKED'` provider argument keeps
the locked entry at `MINIMUM_LIQUIDITY` and the total above it. -/
theorem runOps_locked (s : Pool) (ops : List PoolOp)
    (hops : ∀ op ∈ ops, opProvider op ≠ some "LOCKED")
    (hL : dictGet s.liquidity_providers "LOCKED" 0 = MINIMUM_LIQUIDITY)
    (hT : MINIMUM_LIQUIDITY ≤ s.total_liquidity) :
    dictGet (runOps s ops).liquidity_providers "LOCKED" 0 =
      MINIMUM_LIQUIDITY ∧
    MINIMUM_LIQUIDITY ≤ (runOps s ops).total_liquidity := by
  induction ops generalizing s with
  | nil => exact ⟨hL, hT⟩
  | cons op rest ih =>
    have h1 := applyOp_locked s op (hops op (by simp)) hL hT
    simp only [runOps, List.foldl_cons]
    exact ih (applyOp s op) (fun o ho => hops o (by simp [ho])) h1.1 h1.2

/-- Running a call sequence whose `initialize_pool` calls never use the
`'LOCKED'` provider preserves `totalLiquidity = sum of share balances`
(strengthened with: an uninitialized pool has an empty mapping). -/
theorem runOps_sum (s : Pool) (ops : List PoolOp)
    (hops : ∀ op ∈ ops, opIsInit op = true → opProvider op ≠ some "LOCKED")
    (hsum : dictSum s.liquidity_providers = s.total_liquidity)
    (hemp : s.total_liquidity = 0 → s.liquidity_providers = []) :
    dictSum (runOps s ops).liquidity_providers =
      (runOps s ops).total_liquidity := by
  induction ops generalizing s with
  | nil => exact hsum
  | cons op rest ih =>
    have h1 := applyOp_sum s op (hops op (by simp)) hsum hemp
    simp only [runOps, List.foldl_cons]
    exact ih (applyOp s op) (fun o ho => hops o (by simp [ho])) h1.1 h1.2

/-- Running any call sequence preserves the reserve-positivity
classification. -/
theorem runOps_reserves (s : Pool) (ops : List PoolOp)
    (h : s.total_liquidity = 0 ∧ s.reserve0 = 0 ∧ s.reserve1 = 0 ∨
      0 < s.total_liquidity ∧ 0 < s.reserve0 ∧ 0 < s.reserve1) :
    (runOps s ops).total_liquidity = 0 ∧ (runOps s ops).reserve0 = 0 ∧
      (runOps s ops).reserve1 = 0 ∨
    0 < (runOps s ops).total_liquidity ∧ 0 < (runOps s ops).reserve0 ∧
      0 < (runOps s ops).reserve1 := by
  induction ops generalizing s with
  | nil => exact h
  | cons op rest ih =>
    simp only [runOps, List.foldl_cons]
    exact ih (applyOp s op) (applyOp_reserves s op h)

/-- State after `initialize_pool(20000, 20000, 'Alice')` on a fresh
pool: `floor (sqrt (20000 * 20000)) = 20000` total shares. -/
def poolA : Pool :=
  { reserve0 := 20000, reserve1 := 20000, total_liquidity := 20000,
    liquidity_providers := [("LOCKED", 1000), ("Alice", 19000)] }

theorem init_eval_A :
    init_pool emptyPool 20000 20000 "Alice" = (.ok 19000, poolA) := by
  rw [init_pool]
  norm_num [int_sqrt_4e8, emptyPool, dictSet, MINIMUM_LIQUIDITY, poolA]
  decide

/-- State after `initialize_pool(20000, 20000, 'LOCKED')` on a fresh
pool: the provider assignment overwrites the locked entry. -/
def poolL : Pool :=
  { reserve0 := 20000, reserve1 := 20000, total_liquidity := 20000,
    liquidity_providers := [("LOCKED", 19000)] }

theorem init_eval_L :
    init_pool emptyPool 20000 20000 "LOCKED" = (.ok 19000, poolL) := by
  rw [init_pool]
  norm_num [int_sqrt_4e8, emptyPool, dictSet, MINIMUM_LIQUIDITY, poolL]

/-- `floor (sqrt (2^60 * (2^60 - 1))) = 2^60 - 1` exactly. -/
theorem int_sqrt_pow60 :
    Int.sqrt ((1152921504606846976 : Int) * 1152921504606846975) =
      1152921504606846975 := by
  have h := int_sqrt_eq (1152921504606846976 * 1152921504606846975)
    1152921504606846975 (by norm_num) (by norm_num)
  push_cast at h
  norm_num at h ⊢

/-! ### Claim theorems -/

/-- C1: for every pool state and every successful call
`swap(tokenIn, amountIn)`, the product `reserve0 * reserve1` after the
swap is at least the product before the swap. -/
theorem claim_C1_swap_preserves_k (p : Pool) (token_in amount_in out : Int)
    (p' : Pool) (h : swap p token_in amount_in = (.ok out, p')) :
    p.reserve0 * p.reserve1 ≤ p'.reserve0 * p'.reserve1 :=
  swap_k p token_in amount_in out p' h

/-- State after `swap(0, 1000)` on `poolA`. -/
def poolASw : Pool :=
  { reserve0 := 21000, reserve1 := 19051, total_liquidity := 20000,
    liquidity_providers := [("LOCKED", 1000), ("Alice", 19000)] }

/-- Witness for C1 at the concrete swap `swap(0, 1000)` on `poolA`. -/
theorem claim_C1_witness :
    poolA.reserve0 * poolA.reserve1 ≤ poolASw.reserve0 * poolASw.reserve1 :=
  claim_C1_swap_preserves_k poolA 0 1000 949 poolASw (by decide)

/-- C2: `get_amount_out` and `swap` agree exactly on every pool state
and argument pair: the quote is bit-for-bit the result component of the
swap, so both fail together or return the same value. -/
theorem claim_C2_quote_matches_swap (p : Pool) (token_in amount_in : Int) :
    get_amount_out p token_in amount_in = (swap p token_in amount_in).1 :=
  get_amount_out_eq_swap_fst p token_in amount_in

/-- State after `initialize_pool(2^60, 2^60 - 1, 'Alice')` under the
exact integer square root. -/
def poolBig : Pool :=
  { reserve0 := 1152921504606846976, reserve1 := 1152921504606846975,
    total_liquidity := 1152921504606846975,
    liquidity_providers :=
      [("LOCKED", 1000), ("Alice", 1152921504606845975)] }

/-- C3 (divergence evidence): the exact integer square root of
`2^60 * (2^60 - 1)` is `2^60 - 1`, and the exact-isqrt model of
`initialize_pool` accordingly stores `2^60 - 1` total shares — while the
source's `int((2^120 - 2^60) ** 0.5)` evaluates the square root on the
float `2.0^120` (the product is rounded up by more than `2^6` binary
ulps when converted to double) and stores `2^60`, which is not the floor
of the true square root. -/
theorem claim_C3_exact_isqrt_at_failing_input :
    Int.sqrt ((1152921504606846976 : Int) * 1152921504606846975) =
      1152921504606846975 ∧
    init_pool emptyPool 1152921504606846976 1152921504606846975 "Alice" =
      (.ok 1152921504606845975, poolBig) ∧
    (1152921504606846975 : Int) ≠ 1152921504606846976 := by
  refine ⟨int_sqrt_pow60, ?_, by decide⟩
  rw [init_pool]
  norm_num [int_sqrt_pow60, emptyPool, dictSet, MINIMUM_LIQUIDITY, poolBig]
  decide

/-- C4 (counterexample): the claim admits arbitrary provider arguments,
but calling `remove_liquidity(500, 'LOCKED')` on an initialized pool
succeeds and reduces the locked entry from `MINIMUM_LIQUIDITY` to 500. -/
theorem claim_C4_counterexample :
    init_pool emptyPool 20000 20000 "Alice" = (.ok 19000, poolA) ∧
    (remove_liquidity poolA 500 "LOCKED").1 = .ok (500, 500) ∧
    dictGet ((remove_liquidity poolA 500 "LOCKED").2).liquidity_providers
      "LOCKED" 0 = 500 ∧
    (500 : Int) ≠ MINIMUM_LIQUIDITY :=
  ⟨init_eval_A, by decide, by decide, by decide⟩

/-- C4 (amended): once the pool is initialized with a provider other
than the reserved identifier, no sequence of calls whose provider
arguments avoid `'LOCKED'` can change the locked balance from
`MINIMUM_LIQUIDITY`, and `totalLiquidity` never drops below it. -/
theorem claim_C4_amended (a0 a1 r : Int) (pr : String) (s0 : Pool)
    (ops : List PoolOp) (hpr : pr ≠ "LOCKED")
    (hops : ∀ op ∈ ops, opProvider op ≠ some "LOCKED")
    (hinit : init_pool emptyPool a0 a1 pr = (.ok r, s0)) :
    dictGet (runOps s0 ops).liquidity_providers "LOCKED" 0 =
      MINIMUM_LIQUIDITY ∧
    MINIMUM_LIQUIDITY ≤ (runOps s0 ops).total_liquidity := by
  obtain ⟨-, -, -, -, hlt, -, hp'⟩ :=
    init_ok_cases emptyPool a0 a1 pr r s0 hinit
  subst hp'
  apply runOps_locked _ _ hops
  · rw [dictGet_dictSet_ne _ _ _ _ _ hpr, dictGet_dictSet_self]
  · exact hlt.le

/-- Witness for the amended C4: initialize as Alice, swap once, and the
locked entry is still exactly 1000. -/
theorem claim_C4_amended_witness :
    dictGet (runOps poolA [PoolOp.doSwap 0 1000]).liquidity_providers
      "LOCKED" 0 = MINIMUM_LIQUIDITY ∧
    MINIMUM_LIQUIDITY ≤ (runOps poolA [PoolOp.doSwap 0 1000]).total_liquidity :=
  claim_C4_amended 20000 20000 19000 "Alice" poolA [PoolOp.doSwap 0 1000]
    (by decide) (by decide) init_eval_A

/-- State after `initialize_pool(2^500, 2^500, 'Alice')` on a fresh
pool: both the exact integer square root and the source's float path
store exactly `2^500` total shares here (the product `2^1000` and its
square root are powers of two, exactly representable as doubles). -/
def poolHuge1 : Pool :=
  { reserve0 := 3273390607896141870013189696827599152216642046043064789483291368096133796404674554883270092325904157150886684127560071009217256545885393053328527589376,
    reserve1 := 3273390607896141870013189696827599152216642046043064789483291368096133796404674554883270092325904157150886684127560071009217256545885393053328527589376,
    total_liquidity := 3273390607896141870013189696827599152216642046043064789483291368096133796404674554883270092325904157150886684127560071009217256545885393053328527589376,
    liquidity_providers :=
      [("LOCKED", 1000),
       ("Alice", 3273390607896141870013189696827599152216642046043064789483291368096133796404674554883270092325904157150886684127560071009217256545885393053328527588376)] }

/-- `floor (sqrt (2^500 * 2^500)) = 2^500` (written as literals). -/
theorem int_sqrt_pow1000 :
    Int.sqrt ((3273390607896141870013189696827599152216642046043064789483291368096133796404674554883270092325904157150886684127560071009217256545885393053328527589376 : Int) * 3273390607896141870013189696827599152216642046043064789483291368096133796404674554883270092325904157150886684127560071009217256545885393053328527589376) = 3273390607896141870013189696827599152216642046043064789483291368096133796404674554883270092325904157150886684127560071009217256545885393053328527589376 := by
  have h := int_sqrt_eq (3273390607896141870013189696827599152216642046043064789483291368096133796404674554883270092325904157150886684127560071009217256545885393053328527589376 * 3273390607896141870013189696827599152216642046043064789483291368096133796404674554883270092325904157150886684127560071009217256545885393053328527589376)
    3273390607896141870013189696827599152216642046043064789483291368096133796404674554883270092325904157150886684127560071009217256545885393053328527589376 (by norm_num) (by norm_num)
  push_cast at h
  norm_num at h ⊢

theorem init_eval_huge :
    init_pool emptyPool 3273390607896141870013189696827599152216642046043064789483291368096133796404674554883270092325904157150886684127560071009217256545885393053328527589376 3273390607896141870013189696827599152216642046043064789483291368096133796404674554883270092325904157150886684127560071009217256545885393053328527589376 "Alice" =
      (.ok 3273390607896141870013189696827599152216642046043064789483291368096133796404674554883270092325904157150886684127560071009217256545885393053328527588376, poolHuge1) := by
  rw [init_pool]
  norm_num [int_sqrt_pow1000, emptyPool, dictSet, MINIMUM_LIQUIDITY,
    poolHuge1]
  decide

/-- State after `add_liquidity(2^520, 2^520, 'Bob')` on `poolHuge1`:
reserves `2^500 + 2^520`, so `k = (2^500 + 2^520)^2 > 2^1040` exceeds
the double range. -/
def poolHuge2 : Pool :=
  { reserve0 := 3432402103455912753632820412730393436233869866713698747762021212884139687832624430735834703600819603392805306582424556578632003217114867791680067474085117952,
    reserve1 := 3432402103455912753632820412730393436233869866713698747762021212884139687832624430735834703600819603392805306582424556578632003217114867791680067474085117952,
    total_liquidity := 3432402103455912753632820412730393436233869866713698747762021212884139687832624430735834703600819603392805306582424556578632003217114867791680067474085117952,
    liquidity_providers :=
      [("LOCKED", 1000),
       ("Alice", 3273390607896141870013189696827599152216642046043064789483291368096133796404674554883270092325904157150886684127560071009217256545885393053328527588376),
       ("Bob", 3432398830065304857490950399540696608634717650071652704697231729592771591698828026061279820330727277488648155695740429018560993999858321906287014145557528576)] }

/-- State left behind by the failing
`safe_swap_with_slippage(0, 1000000, 0)` on `poolHuge2`: the inner
`swap` has already moved `1000000` in and `996999` out when
`verify_k_invariant` raises. -/
def poolHuge3 : Pool :=
  { reserve0 := 3432402103455912753632820412730393436233869866713698747762021212884139687832624430735834703600819603392805306582424556578632003217114867791680067474086117952,
    reserve1 := 3432402103455912753632820412730393436233869866713698747762021212884139687832624430735834703600819603392805306582424556578632003217114867791680067474084120953,
    total_liquidity := 3432402103455912753632820412730393436233869866713698747762021212884139687832624430735834703600819603392805306582424556578632003217114867791680067474085117952,
    liquidity_providers :=
      [("LOCKED", 1000),
       ("Alice", 3273390607896141870013189696827599152216642046043064789483291368096133796404674554883270092325904157150886684127560071009217256545885393053328527588376),
       ("Bob", 3432398830065304857490950399540696608634717650071652704697231729592771591698828026061279820330727277488648155695740429018560993999858321906287014145557528576)] }

/-- C5 (refutation evidence): `safe_swap_with_slippage` is not atomic on
failure.  Starting from the empty pool, `initialize_pool(2^500, 2^500,
'Alice')` and `add_liquidity(2^520, 2^520, 'Bob')` succeed with pure
integer arithmetic and leave `k = (2^500 + 2^520)^2 ≈ 1.18e313`; the
following `safe_swap_with_slippage(0, 1000000, 0)` quotes and executes
the swap, and only then `verify_k_invariant` converts `old_k` to a
double — which overflows (`old_k ≥ 2^1024 - 2^970`), so the call raises
with the reserves already mutated: the state after the failed call
differs from the state before it. -/
theorem claim_C5_safe_swap_overflow_not_atomic :
    init_pool emptyPool 3273390607896141870013189696827599152216642046043064789483291368096133796404674554883270092325904157150886684127560071009217256545885393053328527589376 3273390607896141870013189696827599152216642046043064789483291368096133796404674554883270092325904157150886684127560071009217256545885393053328527589376 "Alice" =
      (.ok 3273390607896141870013189696827599152216642046043064789483291368096133796404674554883270092325904157150886684127560071009217256545885393053328527588376, poolHuge1) ∧
    add_liquidity poolHuge1 3432398830065304857490950399540696608634717650071652704697231729592771591698828026061279820330727277488648155695740429018560993999858321906287014145557528576 3432398830065304857490950399540696608634717650071652704697231729592771591698828026061279820330727277488648155695740429018560993999858321906287014145557528576 "Bob" =
      (.ok (3432398830065304857490950399540696608634717650071652704697231729592771591698828026061279820330727277488648155695740429018560993999858321906287014145557528576,
            3432398830065304857490950399540696608634717650071652704697231729592771591698828026061279820330727277488648155695740429018560993999858321906287014145557528576,
            3432398830065304857490950399540696608634717650071652704697231729592771591698828026061279820330727277488648155695740429018560993999858321906287014145557528576, 0, 0), poolHuge2) ∧
    safe_swap_with_slippage poolHuge2 0 1000000 0 =
      (.error .overflowError, poolHuge3) ∧
    poolHuge3 ≠ poolHuge2 :=
  ⟨init_eval_huge, by decide, by decide, by decide⟩

/-- C6: for an active pool, `tokenOut ∈ {0,1}` and `0 < X < reserveOut`,
`get_amount_in` succeeds with the rounded-up amount
`ceil(X * reserveIn * FEE_DENOMINATOR / ((reserveOut - X) * FEE_NUMERATOR))`
(characterized by the two bracketing inequalities), and feeding that
amount into `get_amount_out` on the unchanged state succeeds with an
output of at least `X`. -/
theorem claim_C6_roundtrip (p : Pool) (tokenOut X : Int)
    (htok : tokenOut = 0 ∨ tokenOut = 1)
    (hr0 : 0 < p.reserve0) (hr1 : 0 < p.reserve1) (hX : 0 < X)
    (hXr : X < (if tokenOut = 0 then p.reserve0 else p.reserve1)) :
    ∃ a, get_amount_in p tokenOut X = .ok a ∧
      (let reserve_out := if tokenOut = 0 then p.reserve0 else p.reserve1
       let reserve_in := if tokenOut = 0 then p.reserve1 else p.reserve0
       (reserve_out - X) * FEE_NUMERATOR * (a - 1) <
          X * reserve_in * FEE_DENOMINATOR ∧
       X * reserve_in * FEE_DENOMINATOR ≤
          (reserve_out - X) * FEE_NUMERATOR * a) ∧
      ∃ out, get_amount_out p (1 - tokenOut) a = .ok out ∧ X ≤ out := by
  rcases htok with rfl | rfl
  · norm_num at hXr ⊢
    have hden : (0:Int) < (p.reserve0 - X) * FEE_NUMERATOR := by
      unfold FEE_NUMERATOR; nlinarith
    refine ⟨Int.fdiv (X * p.reserve1 * FEE_DENOMINATOR +
      (p.reserve0 - X) * FEE_NUMERATOR - 1)
      ((p.reserve0 - X) * FEE_NUMERATOR), ?_, ?_, ?_⟩
    · unfold get_amount_in
      dsimp only
      split_ifs with c1 c2 c3 c4 c5 <;>
        first
          | rfl
          | (exact absurd (Or.inl rfl) c1)
          | (exact absurd c2 (by omega))
    · exact ceil_div_spec (X * p.reserve1 * FEE_DENOMINATOR)
        ((p.reserve0 - X) * FEE_NUMERATOR) hden
    · obtain ⟨hapos, hge, hlt⟩ :=
        roundtrip_core p.reserve1 p.reserve0 X _ hr1 hr0 hX hXr rfl
      exact ⟨_, get_amount_out_ok1 p _ _ hr0 hr1 hapos rfl
        (by linarith) hlt, hge⟩
  · norm_num at hXr ⊢
    have hden : (0:Int) < (p.reserve1 - X) * FEE_NUMERATOR := by
      unfold FEE_NUMERATOR; nlinarith
    refine ⟨Int.fdiv (X * p.reserve0 * FEE_DENOMINATOR +
      (p.reserve1 - X) * FEE_NUMERATOR - 1)
      ((p.reserve1 - X) * FEE_NUMERATOR), ?_, ?_, ?_⟩
    · unfold get_amount_in
      dsimp only
      split_ifs with c1 c2 c3 c4 c5 <;>
        first
          | rfl
          | (exact absurd (Or.inr rfl) c1)
          | (exact absurd c2 (by omega))
    · exact ceil_div_spec (X * p.reserve0 * FEE_DENOMINATOR)
        ((p.reserve1 - X) * FEE_NUMERATOR) hden
    · obtain ⟨hapos, hge, hlt⟩ :=
        roundtrip_core p.reserve0 p.reserve1 X _ hr0 hr1 hX hXr rfl
      exact ⟨_, get_amount_out_ok0 p _ _ hr0 hr1 hapos rfl
        (by linarith) hlt, hge⟩

/-- Witness for C6 at `poolA`, `tokenOut = 0`, `X = 1000`. -/
theorem claim_C6_witness :
    ∃ a, get_amount_in poolA 0 1000 = .ok a ∧
      ((poolA.reserve0 - 1000) * FEE_NUMERATOR * (a - 1) <
          1000 * poolA.reserve1 * FEE_DENOMINATOR ∧
       1000 * poolA.reserve1 * FEE_DENOMINATOR ≤
          (poolA.reserve0 - 1000) * FEE_NUMERATOR * a) ∧
      ∃ out, get_amount_out poolA 1 a = .ok out ∧ 1000 ≤ out := by
  have h := claim_C6_roundtrip poolA 0 1000 (Or.inl rfl)
    (by decide) (by decide) (by decide) (by decide)
  simpa using h

/-- C7: for an active pool and positive deposits whose minimum
proportional share is positive, `add_liquidity` succeeds, issues exactly
`min(share0, share1)` shares, consumes
`used_i = (minShare * reserve_i) // totalLiquidity` with
`used_i ≤ amount_i`, and refunds the exact complements. -/
theorem claim_C7_add_liquidity (p : Pool) (a0 a1 : Int) (pr : String)
    (hr0 : 0 < p.reserve0) (hr1 : 0 < p.reserve1)
    (hL : 0 < p.total_liquidity) (ha0 : 0 < a0) (ha1 : 0 < a1)
    (hmin : 0 < min (Int.fdiv (a0 * p.total_liquidity) p.reserve0)
      (Int.fdiv (a1 * p.total_liquidity) p.reserve1)) :
    ∃ u0 u1 rf0 rf1 p',
      add_liquidity p a0 a1 pr =
        (.ok (min (Int.fdiv (a0 * p.total_liquidity) p.reserve0)
                  (Int.fdiv (a1 * p.total_liquidity) p.reserve1),
              u0, u1, rf0, rf1), p') ∧
      u0 = Int.fdiv (min (Int.fdiv (a0 * p.total_liquidity) p.reserve0)
        (Int.fdiv (a1 * p.total_liquidity) p.reserve1) * p.reserve0)
        p.total_liquidity ∧
      u1 = Int.fdiv (min (Int.fdiv (a0 * p.total_liquidity) p.reserve0)
        (Int.fdiv (a1 * p.total_liquidity) p.reserve1) * p.reserve1)
        p.total_liquidity ∧
      u0 ≤ a0 ∧ u1 ≤ a1 ∧ rf0 + u0 = a0 ∧ rf1 + u1 = a1 := by
  set m := min (Int.fdiv (a0 * p.total_liquidity) p.reserve0)
    (Int.fdiv (a1 * p.total_liquidity) p.reserve1) with hm
  have hu0 : Int.fdiv (m * p.reserve0) p.total_liquidity ≤ a0 := by
    have h1 : Int.fdiv (a0 * p.total_liquidity) p.reserve0 * p.reserve0 ≤
        a0 * p.total_liquidity := by
      rw [Int.fdiv_eq_ediv _ hr0.le]
      exact Int.ediv_mul_le _ hr0.ne'
    have h2 : m * p.reserve0 ≤ a0 * p.total_liquidity :=
      le_trans (mul_le_mul_of_nonneg_right (min_le_left _ _) hr0.le) h1
    have h3 := Int.ediv_le_ediv hL h2
    rw [Int.mul_ediv_cancel a0 hL.ne'] at h3
    rwa [Int.fdiv_eq_ediv _ hL.le]
  have hu1 : Int.fdiv (m * p.reserve1) p.total_liquidity ≤ a1 := by
    have h1 : Int.fdiv (a1 * p.total_liquidity) p.reserve1 * p.reserve1 ≤
        a1 * p.total_liquidity := by
      rw [Int.fdiv_eq_ediv _ hr1.le]
      exact Int.ediv_mul_le _ hr1.ne'
    have h2 : m * p.reserve1 ≤ a1 * p.total_liquidity :=
      le_trans (mul_le_mul_of_nonneg_right (min_le_right _ _) hr1.le) h1
    have h3 := Int.ediv_le_ediv hL h2
    rw [Int.mul_ediv_cancel a1 hL.ne'] at h3
    rwa [Int.fdiv_eq_ediv _ hL.le]
  refine ⟨Int.fdiv (m * p.reserve0) p.total_liquidity,
    Int.fdiv (m * p.reserve1) p.total_liquidity,
    a0 - Int.fdiv (m * p.reserve0) p.total_liquidity,
    a1 - Int.fdiv (m * p.reserve1) p.total_liquidity,
    { reserve0 := p.reserve0 + Int.fdiv (m * p.reserve0) p.total_liquidity
      reserve1 := p.reserve1 + Int.fdiv (m * p.reserve1) p.total_liquidity
      total_liquidity := p.total_liquidity + m
      liquidity_providers :=
        dictSet (if dictContains p.liquidity_providers pr then
            p.liquidity_providers
          else dictSet p.liquidity_providers pr 0) pr
          (dictGet (if dictContains p.liquidity_providers pr then
              p.liquidity_providers
            else dictSet p.liquidity_providers pr 0) pr 0 + m) },
    ?_, rfl, rfl, hu0, hu1, by ring, by ring⟩
  unfold add_liquidity
  dsimp only
  rw [← hm]
  split_ifs with c1 c2 c3 c4 c5 <;>
    first
      | rfl
      | (exact absurd c1 (by omega))

/-- Witness for C7 at `poolA` with deposits `(5000, 8000)` by Bob. -/
theorem claim_C7_witness :
    ∃ u0 u1 rf0 rf1 p',
      add_liquidity poolA 5000 8000 "Bob" =
        (.ok (min (Int.fdiv (5000 * poolA.total_liquidity) poolA.reserve0)
                  (Int.fdiv (8000 * poolA.total_liquidity) poolA.reserve1),
              u0, u1, rf0, rf1), p') ∧
      u0 = Int.fdiv (min (Int.fdiv (5000 * poolA.total_liquidity)
        poolA.reserve0) (Int.fdiv (8000 * poolA.total_liquidity)
        poolA.reserve1) * poolA.reserve0) poolA.total_liquidity ∧
      u1 = Int.fdiv (min (Int.fdiv (5000 * poolA.total_liquidity)
        poolA.reserve0) (Int.fdiv (8000 * poolA.total_liquidity)
        poolA.reserve1) * poolA.reserve1) poolA.total_liquidity ∧
      u0 ≤ 5000 ∧ u1 ≤ 8000 ∧ rf0 + u0 = 5000 ∧ rf1 + u1 = 8000 :=
  claim_C7_add_liquidity poolA 5000 8000 "Bob" (by decide) (by decide)
    (by decide) (by decide) (by decide) (by decide)

/-- C8 (counterexample): calling `initialize_pool` with the reserved
provider `'LOCKED'` overwrites the locked entry, leaving the sum of the
share balances 1000 short of `totalLiquidity`. -/
theorem claim_C8_counterexample :
    init_pool emptyPool 20000 20000 "LOCKED" = (.ok 19000, poolL) ∧
    dictSum poolL.liquidity_providers = 19000 ∧
    poolL.total_liquidity = 20000 ∧ (19000 : Int) ≠ 20000 :=
  ⟨init_eval_L, by decide, by decide, by decide⟩

/-- C8 (amended): after any call sequence from the empty pool in which
`initialize_pool` is never given the reserved provider `'LOCKED'`
(add/remove/swap calls may use any provider), `totalLiquidity` equals
the sum of all share balances. -/
theorem claim_C8_amended (ops : List PoolOp)
    (hops : ∀ op ∈ ops, opIsInit op = true →
      opProvider op ≠ some "LOCKED") :
    dictSum (runOps emptyPool ops).liquidity_providers =
      (runOps emptyPool ops).total_liquidity :=
  runOps_sum emptyPool ops hops (by decide) (fun _ => rfl)

/-- Witness for the amended C8 on a concrete three-call sequence. -/
theorem claim_C8_amended_witness :
    dictSum (runOps emptyPool [PoolOp.init 20000 20000 "Alice",
      PoolOp.add 5000 8000 "Bob",
      PoolOp.doSwap 0 1000]).liquidity_providers =
    (runOps emptyPool [PoolOp.init 20000 20000 "Alice",
      PoolOp.add 5000 8000 "Bob",
      PoolOp.doSwap 0 1000]).total_liquidity :=
  claim_C8_amended [PoolOp.init 20000 20000 "Alice",
    PoolOp.add 5000 8000 "Bob", PoolOp.doSwap 0 1000] (by decide)

/-- C9: in every state reachable from the empty pool, either the pool is
uninitialized (`totalLiquidity = 0`) and both reserves are 0, or it is
initialized and both reserves and the total liquidity are strictly
positive — in particular every successful swap leaves the output
reserve strictly positive and every successful removal leaves both
reserves strictly positive. -/
theorem claim_C9_reserves_positive (ops : List PoolOp) :
    ((runOps emptyPool ops).total_liquidity = 0 ∧
     (runOps emptyPool ops).reserve0 = 0 ∧
     (runOps emptyPool ops).reserve1 = 0) ∨
    (0 < (runOps emptyPool ops).total_liquidity ∧
     0 < (runOps emptyPool ops).reserve0 ∧
     0 < (runOps emptyPool ops).reserve1) :=
  runOps_reserves emptyPool ops (Or.inl ⟨rfl, rfl, rfl⟩)

/-- C10: a successful `remove_liquidity` never deletes the provider's
mapping entry: the provider is still present afterwards (with balance 0
after a full withdrawal), and `get_pool_info`'s `provider_count` — which
counts every key except `'LOCKED'`, regardless of balance — is
unchanged. -/
theorem claim_C10_provider_retained (p : Pool) (l : Int) (pr : String)
    (rr : Int × Int) (p' : Pool)
    (h : remove_liquidity p l pr = (.ok rr, p')) :
    dictContains p'.liquidity_providers pr = true ∧
    (dictGet p.liquidity_providers pr 0 = l →
      dictGet p'.liquidity_providers pr 0 = 0) ∧
    (get_pool_info p').provider_count = (get_pool_info p).provider_count := by
  obtain ⟨hl, ht, hle, hmin, hrr, hp'⟩ := remove_ok_cases p l pr rr p' h
  subst hp'
  have hcont : dictContains p.liquidity_providers pr = true :=
    dictContains_of_dictGet_ne _ _ (by omega)
  refine ⟨?_, ?_, ?_⟩
  · exact dictContains_dictSet_self _ _ _
  · intro hfull
    dsimp only
    rw [dictGet_dictSet_self, hfull]
    ring
  · dsimp only [get_pool_info]
    rw [filter_length_dictSet _ _ _ hcont]

/-- State after `remove_liquidity(19000, 'Alice')` on `poolA`: Alice's
entry remains with balance 0. -/
def poolARem : Pool :=
  { reserve0 := 1000, reserve1 := 1000, total_liquidity := 1000,
    liquidity_providers := [("LOCKED", 1000), ("Alice", 0)] }

/-- Witness for C10: Alice withdraws her entire balance and stays in the
mapping with balance 0; the provider count still counts her. -/
theorem claim_C10_witness :
    dictContains poolARem.liquidity_providers "Alice" = true ∧
    (dictGet poolA.liquidity_providers "Alice" 0 = 19000 →
      dictGet poolARem.liquidity_providers "Alice" 0 = 0) ∧
    (get_pool_info poolARem).provider_count =
      (get_pool_info poolA).provider_count :=
  claim_C10_provider_retained poolA 19000 "Alice" (19000, 19000) poolARem
    (by decide)
